import Mathlib

/-!
# Rotating-cube WebGL demo (`src/demos/assignment.js`)

A shallow embedding of the demo's transform pipeline, fragment shader, mesh
constants and render loop, followed by the properties proved about them.

Numbers are elements of a linearly ordered field `α` (exact arithmetic, no
floating-point rounding); the transcendental functions of the JavaScript
`Math` object are supplied through `JSMath`.  The theorems that need
`sin² + cos² = 1` or facts about square roots instantiate `α` with `ℝ` and
`JSMath` with `Real.sin`, `Real.cos`, `Real.tan`, `Real.sqrt`, `Real.pi`.

The gl-matrix routines (`mat4.create`, `mat4.multiply`, `mat4.rotateX`,
`mat4.rotateY`, `mat4.lookAt`, `mat4.perspective`, `mat3.create`,
`mat3.normalFromMat4`) live in `node_modules`, outside `src/`; they are
transcribed statement by statement from gl-matrix 3.x.  Matrices are flat
column-major arrays there; `e0 … e15` are the array slots `[0] … [15]`.

The module is followed statement by statement.  The import declarations of lines
1–2 bind `PicoGL`, `mat4`, `vec3`, `vec4` and `quat`; `mat3` is not among them, so
the references to it at lines 93 and 116 raise `ReferenceError` (`resolve`), which
ends the run of the top-level code and of every call of `draw` at that point.  The
names `positions` and `indices` are imported at line 4 and declared again at lines
56 and 67; the locally declared cube arrays are the ones taken here.
-/

namespace Assignment

/-- The part of the JavaScript `Math` object used by the demo and by gl-matrix. -/
structure JSMath (α : Type) where
  sin : α → α
  cos : α → α
  tan : α → α
  sqrt : α → α
  PI : α

/-- A gl-matrix `mat4`: sixteen numbers, column-major (`e4` is column 1, row 0). -/
@[ext]
structure Mat4 (α : Type) where
  e0 : α
  e1 : α
  e2 : α
  e3 : α
  e4 : α
  e5 : α
  e6 : α
  e7 : α
  e8 : α
  e9 : α
  e10 : α
  e11 : α
  e12 : α
  e13 : α
  e14 : α
  e15 : α
  deriving DecidableEq

/-- A gl-matrix `mat3`: nine numbers, column-major. -/
@[ext]
structure Mat3 (α : Type) where
  e0 : α
  e1 : α
  e2 : α
  e3 : α
  e4 : α
  e5 : α
  e6 : α
  e7 : α
  e8 : α
  deriving DecidableEq

/-- A three-component vector (a JavaScript array `[x, y, z]` or a GLSL `vec3`). -/
@[ext]
structure Vec3 (α : Type) where
  x : α
  y : α
  z : α
  deriving DecidableEq

/-- A GLSL `vec4`. -/
@[ext]
structure Vec4 (α : Type) where
  x : α
  y : α
  z : α
  w : α
  deriving DecidableEq

section Numeric

variable {α : Type} [LinearOrderedField α]

/-- The constant `glMatrix.EPSILON`. -/
def EPSILON : α := 0.000001

/-- The function `Math.hypot` with three arguments. -/
def hypot (J : JSMath α) (a b c : α) : α := J.sqrt (a * a + b * b + c * c)

namespace mat4

/-- The function `mat4.create()`: a fresh identity matrix. -/
def create : Mat4 α :=
  { e0 := 1, e1 := 0, e2 := 0, e3 := 0,
    e4 := 0, e5 := 1, e6 := 0, e7 := 0,
    e8 := 0, e9 := 0, e10 := 1, e11 := 0,
    e12 := 0, e13 := 0, e14 := 0, e15 := 1 }

/-- The function `mat4.identity(out)`. -/
def identity : Mat4 α := create

/-- The function `mat4.multiply(out, a, b)`; the value is the new content of `out`.
All of `a` is cached before `out` is written, so `out` may alias `a`. -/
def multiply (a b : Mat4 α) : Mat4 α :=
  let a00 := a.e0
  let a01 := a.e1
  let a02 := a.e2
  let a03 := a.e3
  let a10 := a.e4
  let a11 := a.e5
  let a12 := a.e6
  let a13 := a.e7
  let a20 := a.e8
  let a21 := a.e9
  let a22 := a.e10
  let a23 := a.e11
  let a30 := a.e12
  let a31 := a.e13
  let a32 := a.e14
  let a33 := a.e15
  { e0 := b.e0 * a00 + b.e1 * a10 + b.e2 * a20 + b.e3 * a30,
    e1 := b.e0 * a01 + b.e1 * a11 + b.e2 * a21 + b.e3 * a31,
    e2 := b.e0 * a02 + b.e1 * a12 + b.e2 * a22 + b.e3 * a32,
    e3 := b.e0 * a03 + b.e1 * a13 + b.e2 * a23 + b.e3 * a33,
    e4 := b.e4 * a00 + b.e5 * a10 + b.e6 * a20 + b.e7 * a30,
    e5 := b.e4 * a01 + b.e5 * a11 + b.e6 * a21 + b.e7 * a31,
    e6 := b.e4 * a02 + b.e5 * a12 + b.e6 * a22 + b.e7 * a32,
    e7 := b.e4 * a03 + b.e5 * a13 + b.e6 * a23 + b.e7 * a33,
    e8 := b.e8 * a00 + b.e9 * a10 + b.e10 * a20 + b.e11 * a30,
    e9 := b.e8 * a01 + b.e9 * a11 + b.e10 * a21 + b.e11 * a31,
    e10 := b.e8 * a02 + b.e9 * a12 + b.e10 * a22 + b.e11 * a32,
    e11 := b.e8 * a03 + b.e9 * a13 + b.e10 * a23 + b.e11 * a33,
    e12 := b.e12 * a00 + b.e13 * a10 + b.e14 * a20 + b.e15 * a30,
    e13 := b.e12 * a01 + b.e13 * a11 + b.e14 * a21 + b.e15 * a31,
    e14 := b.e12 * a02 + b.e13 * a12 + b.e14 * a22 + b.e15 * a32,
    e15 := b.e12 * a03 + b.e13 * a13 + b.e14 * a23 + b.e15 * a33 }

/-- The function `mat4.rotateX(out, a, rad)` called with `out === a`: slots 4 to 11
are rewritten, the others keep the content of `a`. -/
def rotateX (J : JSMath α) (a : Mat4 α) (rad : α) : Mat4 α :=
  let s := J.sin rad
  let c := J.cos rad
  let a10 := a.e4
  let a11 := a.e5
  let a12 := a.e6
  let a13 := a.e7
  let a20 := a.e8
  let a21 := a.e9
  let a22 := a.e10
  let a23 := a.e11
  { a with
    e4 := a10 * c + a20 * s,
    e5 := a11 * c + a21 * s,
    e6 := a12 * c + a22 * s,
    e7 := a13 * c + a23 * s,
    e8 := a20 * c - a10 * s,
    e9 := a21 * c - a11 * s,
    e10 := a22 * c - a12 * s,
    e11 := a23 * c - a13 * s }

/-- The function `mat4.rotateY(out, a, rad)` called with `out === a`: slots 0 to 3
and 8 to 11 are rewritten, the others keep the content of `a`. -/
def rotateY (J : JSMath α) (a : Mat4 α) (rad : α) : Mat4 α :=
  let s := J.sin rad
  let c := J.cos rad
  let a00 := a.e0
  let a01 := a.e1
  let a02 := a.e2
  let a03 := a.e3
  let a20 := a.e8
  let a21 := a.e9
  let a22 := a.e10
  let a23 := a.e11
  { a with
    e0 := a00 * c - a20 * s,
    e1 := a01 * c - a21 * s,
    e2 := a02 * c - a22 * s,
    e3 := a03 * c - a23 * s,
    e8 := a00 * s + a20 * c,
    e9 := a01 * s + a21 * c,
    e10 := a02 * s + a22 * c,
    e11 := a03 * s + a23 * c }

/-- The function `mat4.lookAt(out, eye, center, up)`; every slot of `out` is written. -/
def lookAt (J : JSMath α) (eye center up : Vec3 α) : Mat4 α :=
  if |eye.x - center.x| < EPSILON ∧ |eye.y - center.y| < EPSILON ∧
      |eye.z - center.z| < EPSILON then
    identity
  else
    let z0 := eye.x - center.x
    let z1 := eye.y - center.y
    let z2 := eye.z - center.z
    let len := 1 / hypot J z0 z1 z2
    let z0 := z0 * len
    let z1 := z1 * len
    let z2 := z2 * len
    let x0 := up.y * z2 - up.z * z1
    let x1 := up.z * z0 - up.x * z2
    let x2 := up.x * z1 - up.y * z0
    let len := hypot J x0 x1 x2
    let x : Vec3 α :=
      if len = 0 then ⟨0, 0, 0⟩ else ⟨x0 * (1 / len), x1 * (1 / len), x2 * (1 / len)⟩
    let x0 := x.x
    let x1 := x.y
    let x2 := x.z
    let y0 := z1 * x2 - z2 * x1
    let y1 := z2 * x0 - z0 * x2
    let y2 := z0 * x1 - z1 * x0
    let len := hypot J y0 y1 y2
    let y : Vec3 α :=
      if len = 0 then ⟨0, 0, 0⟩ else ⟨y0 * (1 / len), y1 * (1 / len), y2 * (1 / len)⟩
    let y0 := y.x
    let y1 := y.y
    let y2 := y.z
    { e0 := x0, e1 := y0, e2 := z0, e3 := 0,
      e4 := x1, e5 := y1, e6 := z1, e7 := 0,
      e8 := x2, e9 := y2, e10 := z2, e11 := 0,
      e12 := -(x0 * eye.x + x1 * eye.y + x2 * eye.z),
      e13 := -(y0 * eye.x + y1 * eye.y + y2 * eye.z),
      e14 := -(z0 * eye.x + z1 * eye.y + z2 * eye.z),
      e15 := 1 }

/-- The function `mat4.perspective(out, fovy, aspect, near, far)`; every slot of `out`
is written.  `far = none` stands for a `null` or infinite far plane. -/
def perspective (J : JSMath α) (fovy aspect near : α) (far : Option α) : Mat4 α :=
  let f := 1 / J.tan (fovy / 2)
  match far with
  | some far =>
    let nf := 1 / (near - far)
    { e0 := f / aspect, e1 := 0, e2 := 0, e3 := 0,
      e4 := 0, e5 := f, e6 := 0, e7 := 0,
      e8 := 0, e9 := 0, e10 := (far + near) * nf, e11 := -1,
      e12 := 0, e13 := 0, e14 := 2 * far * near * nf, e15 := 0 }
  | none =>
    { e0 := f / aspect, e1 := 0, e2 := 0, e3 := 0,
      e4 := 0, e5 := f, e6 := 0, e7 := 0,
      e8 := 0, e9 := 0, e10 := -1, e11 := -1,
      e12 := 0, e13 := 0, e14 := -2 * near, e15 := 0 }

end mat4

namespace mat3

/-- The function `mat3.create()`: a fresh 3×3 identity matrix. -/
def create : Mat3 α :=
  { e0 := 1, e1 := 0, e2 := 0,
    e3 := 0, e4 := 1, e5 := 0,
    e6 := 0, e7 := 0, e8 := 1 }

/-- The function `mat3.normalFromMat4(out, a)`.  When the determinant of `a` is zero
the JavaScript returns `null` and leaves `out` untouched: that is `none` here;
otherwise the value is the new content of `out`. -/
def normalFromMat4 (a : Mat4 α) : Option (Mat3 α) :=
  let a00 := a.e0
  let a01 := a.e1
  let a02 := a.e2
  let a03 := a.e3
  let a10 := a.e4
  let a11 := a.e5
  let a12 := a.e6
  let a13 := a.e7
  let a20 := a.e8
  let a21 := a.e9
  let a22 := a.e10
  let a23 := a.e11
  let a30 := a.e12
  let a31 := a.e13
  let a32 := a.e14
  let a33 := a.e15
  let b00 := a00 * a11 - a01 * a10
  let b01 := a00 * a12 - a02 * a10
  let b02 := a00 * a13 - a03 * a10
  let b03 := a01 * a12 - a02 * a11
  let b04 := a01 * a13 - a03 * a11
  let b05 := a02 * a13 - a03 * a12
  let b06 := a20 * a31 - a21 * a30
  let b07 := a20 * a32 - a22 * a30
  let b08 := a20 * a33 - a23 * a30
  let b09 := a21 * a32 - a22 * a31
  let b10 := a21 * a33 - a23 * a31
  let b11 := a22 * a33 - a23 * a32
  let det := b00 * b11 - b01 * b10 + b02 * b09 + b03 * b08 - b04 * b07 + b05 * b06
  if det = 0 then
    none
  else
    let det := 1 / det
    some
      { e0 := (a11 * b11 - a12 * b10 + a13 * b09) * det,
        e1 := (a12 * b08 - a10 * b11 - a13 * b07) * det,
        e2 := (a10 * b10 - a11 * b08 + a13 * b06) * det,
        e3 := (a02 * b10 - a01 * b11 - a03 * b09) * det,
        e4 := (a00 * b11 - a02 * b08 + a03 * b07) * det,
        e5 := (a01 * b08 - a00 * b10 - a03 * b06) * det,
        e6 := (a31 * b05 - a32 * b04 + a33 * b03) * det,
        e7 := (a32 * b02 - a30 * b05 - a33 * b01) * det,
        e8 := (a30 * b04 - a31 * b02 + a33 * b00) * det }

end mat3

/-! ## The fragment shader (`fragmentShaderSource`, lines 28–37) -/

namespace glsl

/-- The GLSL built-in `dot` on `vec3`. -/
def dot (a b : Vec3 α) : α := a.x * b.x + a.y * b.y + a.z * b.z

/-- The GLSL built-in `length` on `vec3`. -/
def length (J : JSMath α) (v : Vec3 α) : α := J.sqrt (dot v v)

/-- The GLSL built-in `normalize` on `vec3`: the vector divided by its length. -/
def normalize (J : JSMath α) (v : Vec3 α) : Vec3 α :=
  ⟨v.x / length J v, v.y / length J v, v.z / length J v⟩

/-- The GLSL constructor `vec3(float)`: the scalar in every component. -/
def vec3 (d : α) : Vec3 α := ⟨d, d, d⟩

/-- The GLSL constructor `vec4(vec3, float)`. -/
def vec4 (v : Vec3 α) (w : α) : Vec4 α := ⟨v.x, v.y, v.z, w⟩

end glsl

/-- The `main` function of the fragment shader: the value written to `gl_FragColor`
for the interpolated varying `vNormal`. -/
def fragmentShader (J : JSMath α) (vNormal : Vec3 α) : Vec4 α :=
  let normal := glsl.normalize J vNormal
  let lightDirection := glsl.normalize J ⟨1.0, 1.0, 1.0⟩
  let diffuse := max (glsl.dot normal lightDirection) 0.0
  glsl.vec4 (glsl.vec3 diffuse) 1.0

end Numeric

/-! ## The cube mesh (lines 55–82) -/

/-- The constant `positions`: eight vertices, three coordinates each. -/
def positions : List Int :=
  [-1, -1, -1,
    1, -1, -1,
    1, 1, -1,
    -1, 1, -1,
    -1, -1, 1,
    1, -1, 1,
    1, 1, 1,
    -1, 1, 1]

/-- The constant `indices`: six faces, two triangles each. -/
def indices : List Int :=
  [0, 1, 2, 0, 2, 3,
   1, 5, 6, 1, 6, 2,
   5, 4, 7, 5, 7, 6,
   4, 0, 3, 4, 3, 7,
   3, 2, 6, 3, 6, 7,
   4, 5, 1, 4, 1, 0]

/-- The conversion of an integer to an element of a `Uint16Array`: reduction
modulo `2^16`. -/
def toUint16 (x : Int) : Nat := (x % 65536).toNat

/-- The expression `new Uint16Array(xs)` for an array of integers. -/
def Uint16Array (xs : List Int) : List Nat := xs.map toUint16

/-- The error kinds named by the specification.  The source raises none of them. -/
inductive SetupError where
  | CompileError
  | LinkError
  | UnknownUniform
  | IndexOverflow
  | DegenerateAspect
  deriving DecidableEq

/-- The index-buffer upload of lines 80–82 as a function of the index array: the
content of the element array buffer afterwards.  There is no failing path in the
source, so the result is always `Except.ok`. -/
def uploadIndexBuffer (idx : List Int) : Except SetupError (List Nat) :=
  Except.ok (Uint16Array idx)

section Program

variable {α : Type} [LinearOrderedField α]

/-! ## Name resolution and exceptions -/

/-- The exceptions raised by the source itself. -/
inductive JSError where
  | ReferenceError
  deriving DecidableEq

/-- The module namespaces the source refers to. -/
inductive ModuleName where
  | PicoGL
  | mat4
  | vec3
  | vec4
  | quat
  | mat3
  deriving DecidableEq

/-- The namespaces bound by the import declarations of lines 1–2:
`PicoGL` and `{mat4, vec3, vec4, quat}`. -/
def importedNames : List ModuleName :=
  [ModuleName.PicoGL, ModuleName.mat4, ModuleName.vec3, ModuleName.vec4, ModuleName.quat]

/-- Evaluation of a reference to a module namespace: a name that no import declaration
binds raises `ReferenceError`. -/
def resolve (name : ModuleName) : Except JSError Unit :=
  if name ∈ importedNames then Except.ok () else Except.error JSError.ReferenceError

/-! ## WebGL constants and recorded calls -/

/-- The constant `gl.COLOR_BUFFER_BIT`. -/
def COLOR_BUFFER_BIT : Nat := 0x4000

/-- The constant `gl.DEPTH_BUFFER_BIT`. -/
def DEPTH_BUFFER_BIT : Nat := 0x100

/-- The constant `gl.TRIANGLES`. -/
def TRIANGLES : Nat := 4

/-- The constant `gl.UNSIGNED_SHORT`. -/
def UNSIGNED_SHORT : Nat := 0x1403

/-- The three uniform locations looked up at lines 95–97, named after their
uniforms. -/
inductive UniformLocation where
  | uModelViewProjectionMatrix
  | uModelMatrix
  | uNormalMatrix
  deriving DecidableEq

/-- The calls to the graphics context and to the host scheduler made by the render
loop, with their arguments.  The callback of `requestAnimationFrame` is always
`draw`. -/
inductive Call (α : Type) where
  | clear (mask : Nat)
  | uniformMatrix4fv (location : UniformLocation) (transpose : Bool) (value : Mat4 α)
  | uniformMatrix3fv (location : UniformLocation) (transpose : Bool) (value : Mat3 α)
  | drawElements (mode : Nat) (count : Nat) (type : Nat) (offset : Nat)
  | requestAnimationFrame

/-- The module-level variables read or written by the render loop, the content of
the element array buffer, the calls recorded so far, and the exception that ended
the most recent run of the top-level code or of `draw`, if one did.
`normalMatrix = none` is the constant of line 93 before its initialiser has
completed. -/
structure State (α : Type) where
  modelMatrix : Mat4 α
  viewMatrix : Mat4 α
  projectionMatrix : Mat4 α
  modelViewProjectionMatrix : Mat4 α
  normalMatrix : Option (Mat3 α)
  indexBuffer : List Nat
  calls : List (Call α)
  thrown : Option JSError

/-- The top-level code from line 76 on, for a canvas of the given size, run until it
completes or throws.  Lines 76–92 fill the index buffer and create the four `mat4`
identities.  Line 93 evaluates `mat3.create()`; when `mat3` does not resolve, the
exception ends the run there, and lines 95–131 (camera setup, first
`requestAnimationFrame`) are not executed. -/
def setup (J : JSMath α) (width height : α) : State α :=
  let s : State α :=
    { modelMatrix := mat4.create,
      viewMatrix := mat4.create,
      projectionMatrix := mat4.create,
      modelViewProjectionMatrix := mat4.create,
      normalMatrix := none,
      indexBuffer := Uint16Array indices,
      calls := [],
      thrown := none }
  match resolve ModuleName.mat3 with
  | Except.error e => { s with thrown := some e }
  | Except.ok _ =>
    let s := { s with normalMatrix := some mat3.create }
    let s := { s with viewMatrix := mat4.lookAt J ⟨3, 3, 3⟩ ⟨0, 0, 0⟩ ⟨0, 1, 0⟩ }
    let s := { s with
      projectionMatrix := mat4.perspective J (J.PI / 4) (width / height) 0.1 (some 100) }
    { s with calls := s.calls ++ [Call.requestAnimationFrame] }

/-- The function `draw` (lines 104–128): one call, run until it completes or throws.
Line 116 evaluates `mat3.normalFromMat4(normalMatrix, modelMatrix)`; when `mat3` does
not resolve, or `normalMatrix` is not initialised, the exception ends the call there,
and lines 119–127 (uniform uploads, `drawElements`, `requestAnimationFrame`) are not
executed. -/
def draw (J : JSMath α) (s : State α) : State α :=
  let s := { s with thrown := none }
  let s := { s with calls := s.calls ++ [Call.clear (COLOR_BUFFER_BIT ||| DEPTH_BUFFER_BIT)] }
  let s := { s with modelMatrix := mat4.rotateY J s.modelMatrix 0.01 }
  let s := { s with modelMatrix := mat4.rotateX J s.modelMatrix 0.01 }
  let s := { s with
    modelViewProjectionMatrix := mat4.multiply s.projectionMatrix s.viewMatrix }
  let s := { s with
    modelViewProjectionMatrix := mat4.multiply s.modelViewProjectionMatrix s.modelMatrix }
  match resolve ModuleName.mat3, s.normalMatrix with
  | Except.error e, _ => { s with thrown := some e }
  | Except.ok _, none => { s with thrown := some JSError.ReferenceError }
  | Except.ok _, some out =>
    let normal := (mat3.normalFromMat4 s.modelMatrix).getD out
    let s := { s with normalMatrix := some normal }
    let s := { s with calls := s.calls ++
      [Call.uniformMatrix4fv .uModelViewProjectionMatrix false s.modelViewProjectionMatrix] }
    let s := { s with calls := s.calls ++
      [Call.uniformMatrix4fv .uModelMatrix false s.modelMatrix] }
    let s := { s with calls := s.calls ++
      [Call.uniformMatrix3fv .uNormalMatrix false normal] }
    let s := { s with calls := s.calls ++
      [Call.drawElements TRIANGLES indices.length UNSIGNED_SHORT 0] }
    { s with calls := s.calls ++ [Call.requestAnimationFrame] }

/-- The module state after the top-level code and `n` calls of `draw`. -/
def frames (J : JSMath α) (width height : α) (n : Nat) : State α :=
  (draw J)^[n] (setup J width height)

/-- The calls made during the call of `draw` that takes `s` to `draw J s`. -/
def frameCalls (J : JSMath α) (s : State α) : List (Call α) :=
  (draw J s).calls.drop s.calls.length

/-- The matrices passed to `uniformMatrix4fv` for one location, in call order. -/
def uploads4 (loc : UniformLocation) : List (Call α) → List (Mat4 α)
  | [] => []
  | Call.uniformMatrix4fv l _ v :: cs =>
    if l = loc then v :: uploads4 loc cs else uploads4 loc cs
  | _ :: cs => uploads4 loc cs

/-- The matrices passed to `uniformMatrix3fv` for one location, in call order. -/
def uploads3 (loc : UniformLocation) : List (Call α) → List (Mat3 α)
  | [] => []
  | Call.uniformMatrix3fv l _ v :: cs =>
    if l = loc then v :: uploads3 loc cs else uploads3 loc cs
  | _ :: cs => uploads3 loc cs

/-! ## Line 101 with the JavaScript quotient -/

/-- A JavaScript number as far as division by zero goes: a finite value, an infinity
or NaN.  Rounding is not modelled, and `-0` is identified with `0`. -/
inductive JSNumber (α : Type) where
  | finite (x : α)
  | posInfinity
  | negInfinity
  | NaN
  deriving DecidableEq

namespace JSNumber

/-- The JavaScript operator `/`. -/
def div : JSNumber α → JSNumber α → JSNumber α
  | NaN, _ => NaN
  | _, NaN => NaN
  | finite x, finite y =>
    if y = 0 then
      if x = 0 then NaN else if 0 < x then posInfinity else negInfinity
    else finite (x / y)
  | finite _, posInfinity => finite 0
  | finite _, negInfinity => finite 0
  | posInfinity, finite y => if y < 0 then negInfinity else posInfinity
  | negInfinity, finite y => if y < 0 then posInfinity else negInfinity
  | posInfinity, posInfinity => NaN
  | posInfinity, negInfinity => NaN
  | negInfinity, posInfinity => NaN
  | negInfinity, negInfinity => NaN

/-- The JavaScript operator `*`. -/
def mul : JSNumber α → JSNumber α → JSNumber α
  | NaN, _ => NaN
  | _, NaN => NaN
  | finite x, finite y => finite (x * y)
  | finite x, posInfinity =>
    if x = 0 then NaN else if 0 < x then posInfinity else negInfinity
  | finite x, negInfinity =>
    if x = 0 then NaN else if 0 < x then negInfinity else posInfinity
  | posInfinity, finite y =>
    if y = 0 then NaN else if 0 < y then posInfinity else negInfinity
  | negInfinity, finite y =>
    if y = 0 then NaN else if 0 < y then negInfinity else posInfinity
  | posInfinity, posInfinity => posInfinity
  | posInfinity, negInfinity => negInfinity
  | negInfinity, posInfinity => negInfinity
  | negInfinity, negInfinity => posInfinity

end JSNumber

/-- The function `mat4.perspective(out, fovy, aspect, near, far)` on JavaScript numbers:
the same statements as `mat4.perspective`, with every quotient whose divisor can be
zero, and every product with such a quotient, taken in `JSNumber`. -/
def mat4.perspectiveJS (J : JSMath α) (fovy : α) (aspect : JSNumber α) (near : α)
    (far : Option α) : Mat4 (JSNumber α) :=
  let f := JSNumber.div (JSNumber.finite 1) (JSNumber.finite (J.tan (fovy / 2)))
  match far with
  | some far =>
    let nf := JSNumber.div (JSNumber.finite 1) (JSNumber.finite (near - far))
    { e0 := JSNumber.div f aspect, e1 := JSNumber.finite 0, e2 := JSNumber.finite 0,
      e3 := JSNumber.finite 0,
      e4 := JSNumber.finite 0, e5 := f, e6 := JSNumber.finite 0, e7 := JSNumber.finite 0,
      e8 := JSNumber.finite 0, e9 := JSNumber.finite 0,
      e10 := JSNumber.mul (JSNumber.finite (far + near)) nf, e11 := JSNumber.finite (-1),
      e12 := JSNumber.finite 0, e13 := JSNumber.finite 0,
      e14 := JSNumber.mul (JSNumber.finite (2 * far * near)) nf, e15 := JSNumber.finite 0 }
  | none =>
    { e0 := JSNumber.div f aspect, e1 := JSNumber.finite 0, e2 := JSNumber.finite 0,
      e3 := JSNumber.finite 0,
      e4 := JSNumber.finite 0, e5 := f, e6 := JSNumber.finite 0, e7 := JSNumber.finite 0,
      e8 := JSNumber.finite 0, e9 := JSNumber.finite 0,
      e10 := JSNumber.finite (-1), e11 := JSNumber.finite (-1),
      e12 := JSNumber.finite 0, e13 := JSNumber.finite 0,
      e14 := JSNumber.finite (-2 * near), e15 := JSNumber.finite 0 }

/-- The statement of line 101 as a function of the canvas size (`canvas.width` and
`canvas.height` are non-negative integers): the content of `projectionMatrix`
afterwards.  There is no failing path in the statement, so the result is always
`Except.ok`. -/
def projectionSetup (J : JSMath α) (width height : Nat) :
    Except SetupError (Mat4 (JSNumber α)) :=
  Except.ok (mat4.perspectiveJS J (J.PI / 4)
    (JSNumber.div (JSNumber.finite (width : α)) (JSNumber.finite (height : α))) 0.1 (some 100))

/-- Entrywise image of a `mat4`. -/
def Mat4.map {β : Type} (f : α → β) (a : Mat4 α) : Mat4 β :=
  { e0 := f a.e0, e1 := f a.e1, e2 := f a.e2, e3 := f a.e3,
    e4 := f a.e4, e5 := f a.e5, e6 := f a.e6, e7 := f a.e7,
    e8 := f a.e8, e9 := f a.e9, e10 := f a.e10, e11 := f a.e11,
    e12 := f a.e12, e13 := f a.e13, e14 := f a.e14, e15 := f a.e15 }

/-! ## Mathematical reading of the flat arrays -/

/-- The 4×4 matrix denoted by a column-major `mat4`. -/
def Mat4.toMatrix (a : Mat4 α) : Matrix (Fin 4) (Fin 4) α :=
  !![a.e0, a.e4, a.e8, a.e12;
     a.e1, a.e5, a.e9, a.e13;
     a.e2, a.e6, a.e10, a.e14;
     a.e3, a.e7, a.e11, a.e15]

/-- The 3×3 matrix denoted by a column-major `mat3`. -/
def Mat3.toMatrix (a : Mat3 α) : Matrix (Fin 3) (Fin 3) α :=
  !![a.e0, a.e3, a.e6;
     a.e1, a.e4, a.e7;
     a.e2, a.e5, a.e8]

/-- The upper-left 3×3 block of the matrix denoted by a `mat4`. -/
def upperLeft3x3 (a : Mat4 α) : Matrix (Fin 3) (Fin 3) α :=
  !![a.e0, a.e4, a.e8;
     a.e1, a.e5, a.e9;
     a.e2, a.e6, a.e10]

/-- The textbook rotation about the X axis with cosine `c` and sine `s`. -/
def rotationX (c s : α) : Matrix (Fin 4) (Fin 4) α :=
  !![1, 0, 0, 0;
     0, c, -s, 0;
     0, s, c, 0;
     0, 0, 0, 1]

/-- The textbook rotation about the Y axis with cosine `c` and sine `s`. -/
def rotationY (c s : α) : Matrix (Fin 4) (Fin 4) α :=
  !![c, 0, s, 0;
     0, 1, 0, 0;
     -s, 0, c, 0;
     0, 0, 0, 1]

/-! ## The flat-array routines are the matrix operations they are named after -/

omit [LinearOrderedField α] in
theorem Mat4.toMatrix_injective : Function.Injective (Mat4.toMatrix : Mat4 α → _) := by
  intro a b h
  have h4 : ∀ i j, a.toMatrix i j = b.toMatrix i j := fun i j ↦ by rw [h]
  ext
  · exact h4 0 0
  · exact h4 1 0
  · exact h4 2 0
  · exact h4 3 0
  · exact h4 0 1
  · exact h4 1 1
  · exact h4 2 1
  · exact h4 3 1
  · exact h4 0 2
  · exact h4 1 2
  · exact h4 2 2
  · exact h4 3 2
  · exact h4 0 3
  · exact h4 1 3
  · exact h4 2 3
  · exact h4 3 3

theorem toMatrix_create : (mat4.create : Mat4 α).toMatrix = 1 := by
  ext i j
  fin_cases i <;> fin_cases j <;> simp [Mat4.toMatrix, mat4.create, Matrix.vecHead, Matrix.vecTail]

theorem toMatrix_multiply (a b : Mat4 α) :
    (mat4.multiply a b).toMatrix = a.toMatrix * b.toMatrix := by
  ext i j
  fin_cases i <;> fin_cases j <;>
    simp [Mat4.toMatrix, mat4.multiply, Matrix.mul_apply, Fin.sum_univ_four] <;> ring

theorem toMatrix_rotateX (J : JSMath α) (a : Mat4 α) (rad : α) :
    (mat4.rotateX J a rad).toMatrix = a.toMatrix * rotationX (J.cos rad) (J.sin rad) := by
  ext i j
  fin_cases i <;> fin_cases j <;>
    simp [Mat4.toMatrix, mat4.rotateX, rotationX, Matrix.mul_apply, Fin.sum_univ_four,
      Matrix.vecHead, Matrix.vecTail] <;> ring

theorem toMatrix_rotateY (J : JSMath α) (a : Mat4 α) (rad : α) :
    (mat4.rotateY J a rad).toMatrix = a.toMatrix * rotationY (J.cos rad) (J.sin rad) := by
  ext i j
  fin_cases i <;> fin_cases j <;>
    simp [Mat4.toMatrix, mat4.rotateY, rotationY, Matrix.mul_apply, Fin.sum_univ_four,
      Matrix.vecHead, Matrix.vecTail] <;> ring


/-! ## Rotations -/

/-- The 3×3 rotation about the X axis with cosine `c` and sine `s`. -/
def rotation3X (c s : α) : Matrix (Fin 3) (Fin 3) α :=
  !![1, 0, 0;
     0, c, -s;
     0, s, c]

/-- The 3×3 rotation about the Y axis with cosine `c` and sine `s`. -/
def rotation3Y (c s : α) : Matrix (Fin 3) (Fin 3) α :=
  !![c, 0, s;
     0, 1, 0;
     -s, 0, c]

/-- A `mat4` denoting a pure rotation: the upper-left 3×3 block is orthogonal with
determinant one, and the fourth row and column are `(0, 0, 0, 1)`. -/
def IsRotation (a : Mat4 α) : Prop :=
  (upperLeft3x3 a).transpose * upperLeft3x3 a = 1 ∧ (upperLeft3x3 a).det = 1 ∧
    (a.e3 = 0 ∧ a.e7 = 0 ∧ a.e11 = 0) ∧ (a.e12 = 0 ∧ a.e13 = 0 ∧ a.e14 = 0) ∧ a.e15 = 1

theorem upperLeft3x3_rotateX (J : JSMath α) (a : Mat4 α) (rad : α) :
    upperLeft3x3 (mat4.rotateX J a rad) =
      upperLeft3x3 a * rotation3X (J.cos rad) (J.sin rad) := by
  ext i j
  fin_cases i <;> fin_cases j <;>
    simp [upperLeft3x3, mat4.rotateX, rotation3X, Matrix.mul_apply, Fin.sum_univ_three,
      Matrix.vecHead, Matrix.vecTail]
  all_goals ring

theorem upperLeft3x3_rotateY (J : JSMath α) (a : Mat4 α) (rad : α) :
    upperLeft3x3 (mat4.rotateY J a rad) =
      upperLeft3x3 a * rotation3Y (J.cos rad) (J.sin rad) := by
  ext i j
  fin_cases i <;> fin_cases j <;>
    simp [upperLeft3x3, mat4.rotateY, rotation3Y, Matrix.mul_apply, Fin.sum_univ_three,
      Matrix.vecHead, Matrix.vecTail]
  all_goals ring

theorem rotation3X_orthogonal (c s : α) (h : s ^ 2 + c ^ 2 = 1) :
    (rotation3X c s).transpose * rotation3X c s = 1 ∧ (rotation3X c s).det = 1 := by
  constructor
  · ext i j
    fin_cases i <;> fin_cases j <;>
      simp [rotation3X, Matrix.mul_apply, Fin.sum_univ_three, Matrix.vecHead, Matrix.vecTail]
    all_goals first | linear_combination h | ring1
  · simp [rotation3X, Matrix.det_fin_three]
    linear_combination h

theorem rotation3Y_orthogonal (c s : α) (h : s ^ 2 + c ^ 2 = 1) :
    (rotation3Y c s).transpose * rotation3Y c s = 1 ∧ (rotation3Y c s).det = 1 := by
  constructor
  · ext i j
    fin_cases i <;> fin_cases j <;>
      simp [rotation3Y, Matrix.mul_apply, Fin.sum_univ_three, Matrix.vecHead, Matrix.vecTail]
    all_goals first | linear_combination h | ring1
  · simp [rotation3Y, Matrix.det_fin_three]
    linear_combination h


theorem IsRotation.rotateX (J : JSMath α) (a : Mat4 α) (rad : α)
    (h : J.sin rad ^ 2 + J.cos rad ^ 2 = 1) (ha : IsRotation a) :
    IsRotation (mat4.rotateX J a rad) := by
  obtain ⟨ho, hd, ⟨h3, h7, h11⟩, ht, h15⟩ := ha
  obtain ⟨ro, rd⟩ := rotation3X_orthogonal (J.cos rad) (J.sin rad) h
  refine ⟨?_, ?_, ?_, ht, h15⟩
  · rw [upperLeft3x3_rotateX, Matrix.transpose_mul, Matrix.mul_assoc,
      ← Matrix.mul_assoc _ (upperLeft3x3 a), ho, Matrix.one_mul, ro]
  · rw [upperLeft3x3_rotateX, Matrix.det_mul, hd, rd, one_mul]
  · simp [mat4.rotateX, h3, h7, h11]

theorem IsRotation.rotateY (J : JSMath α) (a : Mat4 α) (rad : α)
    (h : J.sin rad ^ 2 + J.cos rad ^ 2 = 1) (ha : IsRotation a) :
    IsRotation (mat4.rotateY J a rad) := by
  obtain ⟨ho, hd, ⟨h3, h7, h11⟩, ht, h15⟩ := ha
  obtain ⟨ro, rd⟩ := rotation3Y_orthogonal (J.cos rad) (J.sin rad) h
  refine ⟨?_, ?_, ?_, ht, h15⟩
  · rw [upperLeft3x3_rotateY, Matrix.transpose_mul, Matrix.mul_assoc,
      ← Matrix.mul_assoc _ (upperLeft3x3 a), ho, Matrix.one_mul, ro]
  · rw [upperLeft3x3_rotateY, Matrix.det_mul, hd, rd, one_mul]
  · simp [mat4.rotateY, h3, h7, h11]

theorem IsRotation.create : IsRotation (mat4.create : Mat4 α) := by
  refine ⟨?_, ?_, ?_, ?_, ?_⟩
  · ext i j
    fin_cases i <;> fin_cases j <;>
      simp [upperLeft3x3, mat4.create, Matrix.mul_apply, Fin.sum_univ_three,
        Matrix.vecHead, Matrix.vecTail]
  · simp [upperLeft3x3, mat4.create, Matrix.det_fin_three]
  · simp [mat4.create]
  · simp [mat4.create]
  · simp [mat4.create]

/-- For a `mat4` whose fourth row is `(0, 0, 0, 1)` and whose upper-left block is
invertible, `normalFromMat4` succeeds with the inverse transpose of that block. -/
theorem normalFromMat4_affine (a : Mat4 α) (h3 : a.e3 = 0) (h7 : a.e7 = 0)
    (h11 : a.e11 = 0) (h15 : a.e15 = 1) (hd : (upperLeft3x3 a).det ≠ 0) :
    ∃ m, mat3.normalFromMat4 a = some m ∧
      m.toMatrix = ((upperLeft3x3 a)⁻¹).transpose := by
  have hD : (a.e0 * a.e5 - a.e1 * a.e4) * (a.e10 * a.e15 - a.e11 * a.e14) -
      (a.e0 * a.e6 - a.e2 * a.e4) * (a.e9 * a.e15 - a.e11 * a.e13) +
      (a.e0 * a.e7 - a.e3 * a.e4) * (a.e9 * a.e14 - a.e10 * a.e13) +
      (a.e1 * a.e6 - a.e2 * a.e5) * (a.e8 * a.e15 - a.e11 * a.e12) -
      (a.e1 * a.e7 - a.e3 * a.e5) * (a.e8 * a.e14 - a.e10 * a.e12) +
      (a.e2 * a.e7 - a.e3 * a.e6) * (a.e8 * a.e13 - a.e9 * a.e12) = (upperLeft3x3 a).det := by
    rw [Matrix.det_fin_three, h3, h7, h11, h15]
    simp [upperLeft3x3]
    ring
  have hP : (upperLeft3x3 a).det = a.e0 * a.e5 * a.e10 - a.e0 * a.e9 * a.e6
      - a.e4 * a.e1 * a.e10 + a.e4 * a.e9 * a.e2 + a.e8 * a.e1 * a.e6 - a.e8 * a.e5 * a.e2 := by
    rw [Matrix.det_fin_three]
    simp [upperLeft3x3]
  have key : ∀ m : Matrix (Fin 3) (Fin 3) α, m.transpose * upperLeft3x3 a = 1 →
      m = ((upperLeft3x3 a)⁻¹).transpose := by
    intro m hm
    rw [Matrix.inv_eq_left_inv hm, Matrix.transpose_transpose]
  simp only [mat3.normalFromMat4, hD, if_neg hd]
  refine ⟨_, rfl, ?_⟩
  apply key
  generalize (upperLeft3x3 a).det = d at hd hP ⊢
  have hdi : d * d⁻¹ = 1 := mul_inv_cancel₀ hd
  clear hD key
  rw [h3, h7, h11, h15]
  ext i j
  fin_cases i <;> fin_cases j <;>
    simp [Mat3.toMatrix, upperLeft3x3, Matrix.mul_apply, Fin.sum_univ_three,
      Matrix.vecHead, Matrix.vecTail]
  all_goals first | ring1 | linear_combination (-d⁻¹) * hP + hdi

/-! ## The two runs stop at the unbound `mat3` -/

theorem resolve_mat3 : resolve ModuleName.mat3 = Except.error JSError.ReferenceError := by
  simp [resolve, importedNames]

theorem setup_eq (J : JSMath α) (width height : α) :
    setup J width height =
      { modelMatrix := mat4.create,
        viewMatrix := mat4.create,
        projectionMatrix := mat4.create,
        modelViewProjectionMatrix := mat4.create,
        normalMatrix := none,
        indexBuffer := Uint16Array indices,
        calls := [],
        thrown := some JSError.ReferenceError } := by
  simp only [setup, resolve_mat3]

theorem setup_modelMatrix (J : JSMath α) (width height : α) :
    (setup J width height).modelMatrix = mat4.create := by
  rw [setup_eq]

theorem setup_modelViewProjectionMatrix (J : JSMath α) (width height : α) :
    (setup J width height).modelViewProjectionMatrix = mat4.create := by
  rw [setup_eq]

theorem draw_eq (J : JSMath α) (s : State α) :
    draw J s =
      { modelMatrix := mat4.rotateX J (mat4.rotateY J s.modelMatrix 0.01) 0.01,
        viewMatrix := s.viewMatrix,
        projectionMatrix := s.projectionMatrix,
        modelViewProjectionMatrix :=
          mat4.multiply (mat4.multiply s.projectionMatrix s.viewMatrix)
            (mat4.rotateX J (mat4.rotateY J s.modelMatrix 0.01) 0.01),
        normalMatrix := s.normalMatrix,
        indexBuffer := s.indexBuffer,
        calls := s.calls ++ [Call.clear (COLOR_BUFFER_BIT ||| DEPTH_BUFFER_BIT)],
        thrown := some JSError.ReferenceError } := by
  simp only [draw, resolve_mat3]

theorem draw_modelMatrix (J : JSMath α) (s : State α) :
    (draw J s).modelMatrix = mat4.rotateX J (mat4.rotateY J s.modelMatrix 0.01) 0.01 := by
  rw [draw_eq]

theorem draw_modelViewProjectionMatrix (J : JSMath α) (s : State α) :
    (draw J s).modelViewProjectionMatrix =
      mat4.multiply (mat4.multiply s.projectionMatrix s.viewMatrix) (draw J s).modelMatrix := by
  rw [draw_eq]

theorem draw_normalMatrix (J : JSMath α) (s : State α) :
    (draw J s).normalMatrix = s.normalMatrix := by
  rw [draw_eq]

theorem draw_thrown (J : JSMath α) (s : State α) :
    (draw J s).thrown = some JSError.ReferenceError := by
  rw [draw_eq]

theorem draw_calls (J : JSMath α) (s : State α) :
    (draw J s).calls = s.calls ++ [Call.clear (COLOR_BUFFER_BIT ||| DEPTH_BUFFER_BIT)] := by
  rw [draw_eq]

theorem frameCalls_eq (J : JSMath α) (s : State α) :
    frameCalls J s = [Call.clear (COLOR_BUFFER_BIT ||| DEPTH_BUFFER_BIT)] := by
  rw [frameCalls, draw_calls, List.drop_left]

theorem frames_zero (J : JSMath α) (width height : α) :
    frames J width height 0 = setup J width height := rfl

theorem frames_succ (J : JSMath α) (width height : α) (n : Nat) :
    frames J width height (n + 1) = draw J (frames J width height n) := by
  simp only [frames, Function.iterate_succ_apply']

theorem frames_normalMatrix (J : JSMath α) (width height : α) (n : Nat) :
    (frames J width height n).normalMatrix = none := by
  induction n with
  | zero => rw [frames_zero, setup_eq]
  | succ k ih => rw [frames_succ, draw_normalMatrix, ih]

theorem frames_thrown (J : JSMath α) (width height : α) (n : Nat) :
    (frames J width height n).thrown = some JSError.ReferenceError := by
  cases n with
  | zero => rw [frames_zero, setup_eq]
  | succ k => rw [frames_succ, draw_thrown]

/-! ## The model matrix stays a rotation -/

theorem det_rotationX (c s : α) (h : s ^ 2 + c ^ 2 = 1) : (rotationX c s).det = 1 := by
  simp [rotationX, Matrix.det_succ_row_zero, Matrix.det_fin_three, Fin.sum_univ_succ,
    Matrix.vecHead, Matrix.vecTail, Fin.succAbove, Matrix.submatrix]
  linear_combination h

theorem det_rotationY (c s : α) (h : s ^ 2 + c ^ 2 = 1) : (rotationY c s).det = 1 := by
  simp [rotationY, Matrix.det_succ_row_zero, Matrix.det_fin_three, Fin.sum_univ_succ,
    Matrix.vecHead, Matrix.vecTail, Fin.succAbove, Matrix.submatrix]
  linear_combination h

theorem frames_isRotation (J : JSMath α) (hJ : J.sin 0.01 ^ 2 + J.cos 0.01 ^ 2 = 1)
    (width height : α) (n : Nat) : IsRotation (frames J width height n).modelMatrix := by
  induction n with
  | zero =>
    rw [frames_zero, setup_modelMatrix]
    exact IsRotation.create
  | succ k ih =>
    rw [frames_succ, draw_modelMatrix]
    exact IsRotation.rotateX J _ _ hJ (IsRotation.rotateY J _ _ hJ ih)

theorem frames_det (J : JSMath α) (hJ : J.sin 0.01 ^ 2 + J.cos 0.01 ^ 2 = 1)
    (width height : α) (n : Nat) : (frames J width height n).modelMatrix.toMatrix.det = 1 := by
  induction n with
  | zero => rw [frames_zero, setup_modelMatrix, toMatrix_create, Matrix.det_one]
  | succ k ih =>
    rw [frames_succ, draw_modelMatrix, toMatrix_rotateX, toMatrix_rotateY, Matrix.det_mul,
      Matrix.det_mul, ih, det_rotationX _ _ hJ, det_rotationY _ _ hJ]
    norm_num

/-- For a rotation the inverse transpose of the upper-left block is the block itself,
and `normalFromMat4` returns it. -/
theorem IsRotation.normalFromMat4 (a : Mat4 α) (ha : IsRotation a) :
    ((upperLeft3x3 a)⁻¹).transpose = upperLeft3x3 a ∧
      ∃ m, mat3.normalFromMat4 a = some m ∧ m.toMatrix = upperLeft3x3 a := by
  obtain ⟨ho, hd, ⟨h3, h7, h11⟩, _, h15⟩ := ha
  have hinv : ((upperLeft3x3 a)⁻¹).transpose = upperLeft3x3 a := by
    rw [Matrix.inv_eq_left_inv ho, Matrix.transpose_transpose]
  have hne : (upperLeft3x3 a).det ≠ 0 := by rw [hd]; exact one_ne_zero
  obtain ⟨m, hm, hmat⟩ := normalFromMat4_affine a h3 h7 h11 h15 hne
  exact ⟨hinv, m, hm, hmat.trans hinv⟩

/-! ## Claims about the transform pipeline and the render loop -/

/-- C1, as the code has it: one frame of `draw` right-multiplies the model matrix by
the Y rotation first and by the X rotation second, both by the angle 0.01,
`model = M * rotateY(0.01) * rotateX(0.01)`; the two factors are the matrices
that `mat4.rotateY` and `mat4.rotateX` produce from the identity; and from the
identity model of `setup` the first frame leaves
`rotateY(0.01) * rotateX(0.01)`.  This holds in every ordered field, hence over
the reals with the real sine and cosine. -/
theorem C1_draw_model_rotateY_then_rotateX (J : JSMath α) (s : State α) (width height : α) :
    (draw J s).modelMatrix.toMatrix =
        s.modelMatrix.toMatrix * rotationY (J.cos 0.01) (J.sin 0.01) *
          rotationX (J.cos 0.01) (J.sin 0.01) ∧
      (mat4.rotateY J mat4.create 0.01).toMatrix = rotationY (J.cos 0.01) (J.sin 0.01) ∧
      (mat4.rotateX J mat4.create 0.01).toMatrix = rotationX (J.cos 0.01) (J.sin 0.01) ∧
      (frames J width height 1).modelMatrix.toMatrix =
        rotationY (J.cos 0.01) (J.sin 0.01) * rotationX (J.cos 0.01) (J.sin 0.01) := by
  refine ⟨?_, ?_, ?_, ?_⟩
  · rw [draw_modelMatrix, toMatrix_rotateX, toMatrix_rotateY]
  · rw [toMatrix_rotateY, toMatrix_create, Matrix.one_mul]
  · rw [toMatrix_rotateX, toMatrix_create, Matrix.one_mul]
  · rw [frames_succ, frames_zero, draw_modelMatrix, toMatrix_rotateX, toMatrix_rotateY]
    rw [setup_modelMatrix, toMatrix_create, Matrix.one_mul]

/-- C1, as stated, fails: over the reals, with the real sine and cosine, the model
matrix after the first frame from the identity is not
`rotateX(0.01) * rotateY(0.01)`. -/
theorem C1_first_frame_is_not_rotateX_then_rotateY :
    (frames (⟨Real.sin, Real.cos, Real.tan, Real.sqrt, Real.pi⟩ : JSMath ℝ) 300 150
        1).modelMatrix.toMatrix ≠
      rotationX (Real.cos 0.01) (Real.sin 0.01) * rotationY (Real.cos 0.01) (Real.sin 0.01) := by
  intro h
  have h01 := congrFun (congrFun h 0) 1
  rw [frames_succ, frames_zero, draw_modelMatrix, setup_modelMatrix] at h01
  simp [Mat4.toMatrix, mat4.rotateX, mat4.rotateY, mat4.create, rotationX, rotationY,
    Matrix.mul_apply, Fin.sum_univ_four, Matrix.vecHead, Matrix.vecTail] at h01
  have hpos : 0 < Real.sin 0.01 :=
    Real.sin_pos_of_pos_of_lt_pi (by norm_num) (by linarith [Real.pi_gt_three])
  exact absurd h01 (ne_of_gt hpos)

/-- C2 on the code: for every state (every projection, view and model), one call of
`draw` leaves `modelViewProjection = projection * view * model` with `model` the
matrix rotated in the same call (lines 108–113), but the call then throws
`ReferenceError` at line 116 and uploads nothing to `uModelViewProjectionMatrix`:
line 119 is not reached. -/
theorem C2_draw_product_is_not_uploaded (J : JSMath α) (s : State α) :
    (draw J s).modelViewProjectionMatrix.toMatrix =
        s.projectionMatrix.toMatrix * s.viewMatrix.toMatrix *
          (draw J s).modelMatrix.toMatrix ∧
      (draw J s).modelMatrix = mat4.rotateX J (mat4.rotateY J s.modelMatrix 0.01) 0.01 ∧
      (draw J s).thrown = some JSError.ReferenceError ∧
      uploads4 .uModelViewProjectionMatrix (frameCalls J s) = [] := by
  refine ⟨?_, draw_modelMatrix J s, draw_thrown J s, ?_⟩
  · rw [draw_modelViewProjectionMatrix, toMatrix_multiply, toMatrix_multiply]
  · rw [frameCalls_eq]
    rfl

/-- C3 on the code: in every call of `draw` after the top-level code, nothing is
uploaded to `uNormalMatrix` or to `uModelMatrix`, the call ends with
`ReferenceError` (line 116, `mat3` is not imported), and `normalMatrix` is still
uninitialised afterwards, as it has been since line 93 threw. -/
theorem C3_normal_matrix_is_never_uploaded (J : JSMath α) (width height : α) (n : ℕ) :
    uploads3 .uNormalMatrix (frameCalls J (frames J width height n)) = [] ∧
      uploads4 .uModelMatrix (frameCalls J (frames J width height n)) = [] ∧
      (frames J width height (n + 1)).thrown = some JSError.ReferenceError ∧
      (frames J width height (n + 1)).normalMatrix = none ∧
      (frames J width height 0).normalMatrix = none ∧
      (frames J width height 0).thrown = some JSError.ReferenceError := by
  refine ⟨?_, ?_, frames_thrown J width height (n + 1),
    frames_normalMatrix J width height (n + 1), frames_normalMatrix J width height 0,
    frames_thrown J width height 0⟩
  · rw [frameCalls_eq]
    rfl
  · rw [frameCalls_eq]
    rfl

/-- C10 on the code: over the reals, with the real sine and cosine, after the
top-level code and any number `n` of calls of `draw` the model matrix is a pure
rotation: its upper-left 3×3 block `R` satisfies `Rᵀ R = 1`, `R Rᵀ = 1` and
`det R = 1`, its fourth row and fourth column are `(0, 0, 0, 1)`, and the 4×4 model
has determinant one.  The normal matrix, however, does not exist at any `n`:
`normalMatrix` is uninitialised and the run has ended with `ReferenceError`, so no
inverse is ever taken. -/
theorem C10_model_is_rotation_but_no_normal_matrix (width height : ℝ) (n : ℕ) :
    ((upperLeft3x3 (frames ⟨Real.sin, Real.cos, Real.tan, Real.sqrt, Real.pi⟩ width height
          n).modelMatrix).transpose *
        upperLeft3x3 (frames ⟨Real.sin, Real.cos, Real.tan, Real.sqrt, Real.pi⟩ width height
          n).modelMatrix = 1 ∧
      upperLeft3x3 (frames ⟨Real.sin, Real.cos, Real.tan, Real.sqrt, Real.pi⟩ width height
          n).modelMatrix *
        (upperLeft3x3 (frames ⟨Real.sin, Real.cos, Real.tan, Real.sqrt, Real.pi⟩ width height
          n).modelMatrix).transpose = 1 ∧
      (upperLeft3x3 (frames ⟨Real.sin, Real.cos, Real.tan, Real.sqrt, Real.pi⟩ width height
          n).modelMatrix).det = 1) ∧
    ((frames ⟨Real.sin, Real.cos, Real.tan, Real.sqrt, Real.pi⟩ width height n).modelMatrix.e3 = 0 ∧
      (frames ⟨Real.sin, Real.cos, Real.tan, Real.sqrt, Real.pi⟩ width height n).modelMatrix.e7 = 0 ∧
      (frames ⟨Real.sin, Real.cos, Real.tan, Real.sqrt, Real.pi⟩ width height n).modelMatrix.e11 = 0 ∧
      (frames ⟨Real.sin, Real.cos, Real.tan, Real.sqrt, Real.pi⟩ width height n).modelMatrix.e12 = 0 ∧
      (frames ⟨Real.sin, Real.cos, Real.tan, Real.sqrt, Real.pi⟩ width height n).modelMatrix.e13 = 0 ∧
      (frames ⟨Real.sin, Real.cos, Real.tan, Real.sqrt, Real.pi⟩ width height n).modelMatrix.e14 = 0 ∧
      (frames ⟨Real.sin, Real.cos, Real.tan, Real.sqrt, Real.pi⟩ width height n).modelMatrix.e15 = 1) ∧
    (frames ⟨Real.sin, Real.cos, Real.tan, Real.sqrt, Real.pi⟩ width height
      n).modelMatrix.toMatrix.det = 1 ∧
    (frames ⟨Real.sin, Real.cos, Real.tan, Real.sqrt, Real.pi⟩ width height n).normalMatrix = none ∧
    (frames ⟨Real.sin, Real.cos, Real.tan, Real.sqrt, Real.pi⟩ width height n).thrown =
      some JSError.ReferenceError := by
  have hJ : Real.sin 0.01 ^ 2 + Real.cos 0.01 ^ 2 = 1 := Real.sin_sq_add_cos_sq _
  have hrot := frames_isRotation (⟨Real.sin, Real.cos, Real.tan, Real.sqrt, Real.pi⟩ : JSMath ℝ)
    hJ width height n
  obtain ⟨ho, hd, ⟨h3, h7, h11⟩, ⟨h12, h13, h14⟩, h15⟩ := hrot
  exact ⟨⟨ho, Matrix.mul_eq_one_comm.mp ho, hd⟩, ⟨h3, h7, h11, h12, h13, h14, h15⟩,
    frames_det _ hJ width height n, frames_normalMatrix _ width height n,
    frames_thrown _ width height n⟩

/-- C5 on the code: every call of `draw`, from every state, makes exactly one recorded
call, `clear` with the colour and depth bits, rotates the model and recomputes the
model-view-projection matrix, and then ends with `ReferenceError` at line 116.  No
uniform is uploaded, `drawElements` is not issued and `requestAnimationFrame` is
not called: the last call of the frame is the `clear`.  The view and projection
matrices, the normal matrix and the index buffer are left as they were.  The
top-level code itself ends before line 131 and records no call. -/
theorem C5_frame_stops_before_uploads (J : JSMath α) (s : State α) (width height : α) :
    (draw J s).calls = s.calls ++ [Call.clear 0x4100] ∧
      frameCalls J s = [Call.clear 0x4100] ∧
      (draw J s).calls.getLast? = some (Call.clear 0x4100) ∧
      (draw J s).thrown = some JSError.ReferenceError ∧
      (draw J s).modelMatrix.toMatrix =
        s.modelMatrix.toMatrix * rotationY (J.cos 0.01) (J.sin 0.01) *
          rotationX (J.cos 0.01) (J.sin 0.01) ∧
      (draw J s).modelViewProjectionMatrix.toMatrix =
        s.projectionMatrix.toMatrix * s.viewMatrix.toMatrix *
          (draw J s).modelMatrix.toMatrix ∧
      ((draw J s).viewMatrix = s.viewMatrix ∧
        (draw J s).projectionMatrix = s.projectionMatrix ∧
        (draw J s).normalMatrix = s.normalMatrix ∧
        (draw J s).indexBuffer = s.indexBuffer) ∧
      (setup J width height).calls = [] ∧
      indices.length = 36 := by
  have hmask : COLOR_BUFFER_BIT ||| DEPTH_BUFFER_BIT = 0x4100 := by decide
  refine ⟨?_, ?_, ?_, draw_thrown J s, ?_, ?_, ?_, ?_, by decide⟩
  · rw [draw_calls, hmask]
  · rw [frameCalls_eq, hmask]
  · rw [draw_calls, hmask]
    simp
  · rw [draw_modelMatrix, toMatrix_rotateX, toMatrix_rotateY]
  · rw [draw_modelViewProjectionMatrix, toMatrix_multiply, toMatrix_multiply]
  · rw [draw_eq]
    exact ⟨rfl, rfl, rfl, rfl⟩
  · rw [setup_eq]

/-- C7, as the code has it: after the top-level code and before any call of `draw`,
the model matrix is the identity and the model-view-projection matrix is still the
identity written by `mat4.create()`; `draw` is what stores
`projection * view * model` in it. -/
theorem C7_setup_matrices (J : JSMath α) (width height : α) (s : State α) :
    (frames J width height 0).modelMatrix = mat4.create ∧
      (frames J width height 0).modelMatrix.toMatrix = 1 ∧
      (frames J width height 0).modelViewProjectionMatrix = mat4.create ∧
      (frames J width height 0).modelViewProjectionMatrix.toMatrix = 1 ∧
      (draw J s).modelViewProjectionMatrix.toMatrix =
        s.projectionMatrix.toMatrix * s.viewMatrix.toMatrix *
          (draw J s).modelMatrix.toMatrix := by
  refine ⟨?_, ?_, ?_, ?_, ?_⟩
  · rw [frames_zero, setup_modelMatrix]
  · rw [frames_zero, setup_modelMatrix, toMatrix_create]
  · rw [frames_zero, setup_modelViewProjectionMatrix]
  · rw [frames_zero, setup_modelViewProjectionMatrix, toMatrix_create]
  · rw [draw_modelViewProjectionMatrix, toMatrix_multiply, toMatrix_multiply]

/-- C7, as stated, fails: over the reals, for a 300×150 canvas, the
model-view-projection matrix held after `setup` and before any frame is not
`perspective(π/4, 300/150, 0.1, 100) * lookAt((3,3,3), (0,0,0), (0,1,0))`. -/
theorem C7_setup_modelViewProjection_is_not_projection_times_view :
    (frames (⟨Real.sin, Real.cos, Real.tan, Real.sqrt, Real.pi⟩ : JSMath ℝ) 300 150
        0).modelViewProjectionMatrix.toMatrix ≠
      (mat4.perspective (⟨Real.sin, Real.cos, Real.tan, Real.sqrt, Real.pi⟩ : JSMath ℝ)
          (Real.pi / 4) (300 / 150) 0.1 (some 100)).toMatrix *
        (mat4.lookAt (⟨Real.sin, Real.cos, Real.tan, Real.sqrt, Real.pi⟩ : JSMath ℝ)
          ⟨3, 3, 3⟩ ⟨0, 0, 0⟩ ⟨0, 1, 0⟩).toMatrix := by
  have hcond : ¬ (|(3 : ℝ) - 0| < EPSILON ∧ |(3 : ℝ) - 0| < EPSILON ∧
      |(3 : ℝ) - 0| < EPSILON) := by
    norm_num [EPSILON]
  have hV : (mat4.lookAt (⟨Real.sin, Real.cos, Real.tan, Real.sqrt, Real.pi⟩ : JSMath ℝ)
      ⟨3, 3, 3⟩ ⟨0, 0, 0⟩ ⟨0, 1, 0⟩).e10 = 3 * (1 / Real.sqrt 27) := by
    simp only [mat4.lookAt, if_neg hcond, hypot]
    norm_num
  have hP : ∀ aspect : ℝ, (mat4.perspective
        (⟨Real.sin, Real.cos, Real.tan, Real.sqrt, Real.pi⟩ : JSMath ℝ)
        (Real.pi / 4) aspect 0.1 (some 100)).e3 = 0 ∧
      (mat4.perspective (⟨Real.sin, Real.cos, Real.tan, Real.sqrt, Real.pi⟩ : JSMath ℝ)
        (Real.pi / 4) aspect 0.1 (some 100)).e7 = 0 ∧
      (mat4.perspective (⟨Real.sin, Real.cos, Real.tan, Real.sqrt, Real.pi⟩ : JSMath ℝ)
        (Real.pi / 4) aspect 0.1 (some 100)).e11 = -1 ∧
      (mat4.perspective (⟨Real.sin, Real.cos, Real.tan, Real.sqrt, Real.pi⟩ : JSMath ℝ)
        (Real.pi / 4) aspect 0.1 (some 100)).e15 = 0 := fun _ ↦ ⟨rfl, rfl, rfl, rfl⟩
  obtain ⟨hP3, hP7, hP11, hP15⟩ := hP (300 / 150)
  intro h
  have h32 := congrFun (congrFun h 3) 2
  rw [frames_zero, setup_modelViewProjectionMatrix] at h32
  simp [Mat4.toMatrix, mat4.create, Matrix.mul_apply, Fin.sum_univ_four,
    Matrix.vecHead, Matrix.vecTail, hP3, hP7, hP11, hP15, hV] at h32

/-! ## Claims about the mesh and the setup -/

/-- C6: the cube mesh of the source satisfies the mesh invariant: `positions` has 24
coordinates (8 vertices, a multiple of 3), `indices` has 36 entries (a multiple of
3, 12 triangles), and every entry of `indices` is a non-negative integer below 8. -/
theorem C6_cube_mesh_invariant :
    positions.length = 24 ∧ positions.length % 3 = 0 ∧ positions.length / 3 = 8 ∧
      indices.length = 36 ∧ indices.length % 3 = 0 ∧ indices.length / 3 = 12 ∧
      ∀ i ∈ indices, 0 ≤ i ∧ i < 8 := by
  decide

/-- C8, as the code has it: the index upload never fails; for every index array it
stores one 16-bit entry per index, in order, each the index reduced modulo 65536. -/
theorem C8_upload_stores_indices_mod_65536 (idx : List Int) :
    uploadIndexBuffer idx = Except.ok (idx.map toUint16) ∧
      (idx.map toUint16).length = idx.length ∧
      ∀ x : Int, (toUint16 x : Int) = x % 65536 := by
  refine ⟨rfl, List.length_map _ _, ?_⟩
  intro x
  exact Int.toNat_of_nonneg (Int.emod_nonneg x (by decide))

/-- C8, as stated, fails: an upload of 70,000 indices succeeds and stores all 70,000
of them, and an upload with the index values 65536, 65537 and 70000 succeeds and
stores the truncated values 0, 1 and 4464; neither is `IndexOverflow`. -/
theorem C8_upload_does_not_raise_IndexOverflow :
    uploadIndexBuffer (List.replicate 70000 0) = Except.ok (List.replicate 70000 0) ∧
      uploadIndexBuffer (List.replicate 70000 0) ≠ Except.error SetupError.IndexOverflow ∧
      uploadIndexBuffer [65536, 65537, 70000] = Except.ok [0, 1, 4464] ∧
      uploadIndexBuffer [65536, 65537, 70000] ≠ Except.error SetupError.IndexOverflow := by
  have h0 : toUint16 0 = 0 := by decide
  have h1 : uploadIndexBuffer (List.replicate 70000 0) =
      Except.ok (List.replicate 70000 0) := by
    simp only [uploadIndexBuffer, Uint16Array, List.map_replicate, h0]
  have h2 : uploadIndexBuffer [65536, 65537, 70000] = Except.ok [0, 1, 4464] := by
    simp [uploadIndexBuffer, Uint16Array, toUint16]
  refine ⟨h1, ?_, h2, ?_⟩
  · rw [h1]
    exact fun h ↦ Except.noConfusion h
  · rw [h2]
    exact fun h ↦ Except.noConfusion h

theorem real_perspective_focal :
    JSNumber.div (JSNumber.finite (1 : ℝ)) (JSNumber.finite (Real.tan (Real.pi / 4 / 2))) =
      JSNumber.finite (1 / Real.tan (Real.pi / 4 / 2)) := by
  have hpos : 0 < Real.tan (Real.pi / 4 / 2) :=
    Real.tan_pos_of_pos_of_lt_pi_div_two (by positivity) (by linarith [Real.pi_pos])
  simp only [JSNumber.div, if_neg hpos.ne']

/-- Where no divisor is zero, `mat4.perspectiveJS` is `mat4.perspective` entry by
entry. -/
theorem perspectiveJS_finite (J : JSMath α) (fovy aspect near far : α)
    (hf : J.tan (fovy / 2) ≠ 0) (ha : aspect ≠ 0) (hn : near - far ≠ 0) :
    mat4.perspectiveJS J fovy (JSNumber.finite aspect) near (some far) =
      (mat4.perspective J fovy aspect near (some far)).map JSNumber.finite := by
  simp only [mat4.perspectiveJS, mat4.perspective, Mat4.map, JSNumber.div, JSNumber.mul,
    if_neg hf, if_neg ha, if_neg hn]

/-- C9, as the code has it: the projection setup of line 101 has no guard and never
fails; for every canvas width and height it yields
`perspective(π/4, width/height, 0.1, 100)` with the JavaScript quotient.  At height 0
the quotient `width/0` is evaluated: it is `Infinity` for every positive width and
`NaN` for width 0, and with `NaN` slot 0 of the projection matrix is `NaN`. -/
theorem C9_projection_setup_is_unguarded (J : JSMath α) (width height : Nat) :
    projectionSetup J width height =
        Except.ok (mat4.perspectiveJS J (J.PI / 4)
          (JSNumber.div (JSNumber.finite (width : α)) (JSNumber.finite (height : α)))
          0.1 (some 100)) ∧
      projectionSetup J (width + 1) 0 =
        Except.ok (mat4.perspectiveJS J (J.PI / 4) JSNumber.posInfinity 0.1 (some 100)) ∧
      projectionSetup J 0 0 =
        Except.ok (mat4.perspectiveJS J (J.PI / 4) JSNumber.NaN 0.1 (some 100)) ∧
      (mat4.perspectiveJS J (J.PI / 4) JSNumber.NaN 0.1 (some 100)).e0 = JSNumber.NaN := by
  have hw : ((width + 1 : Nat) : α) ≠ 0 := Nat.cast_ne_zero.mpr (Nat.succ_ne_zero width)
  have hpos : (0 : α) < ((width + 1 : Nat) : α) := by exact_mod_cast Nat.succ_pos width
  refine ⟨rfl, ?_, ?_, ?_⟩
  · simp only [projectionSetup, JSNumber.div, Nat.cast_zero, if_true, if_neg hw, if_pos hpos]
  · simp only [projectionSetup, JSNumber.div, Nat.cast_zero, if_true]
  · simp only [mat4.perspectiveJS]
    cases JSNumber.div (JSNumber.finite (1 : α)) (JSNumber.finite (J.tan (J.PI / 4 / 2))) <;>
      rfl

/-- C9, as stated, fails: over the reals, the projection setup for a canvas of width 300
and height 0 does not fail with `DegenerateAspect`; it evaluates `300 / 0`, which is
`Infinity`, and returns a matrix whose slot 0 is `0`.  For a canvas of width 0 and
height 0 it returns a matrix whose slot 0 is `NaN`.  In the run of the top-level
code the statement is not reached: for the 300×0 canvas the run ends with
`ReferenceError` and `projectionMatrix` still holds the identity. -/
theorem C9_zero_height_does_not_raise_DegenerateAspect :
    projectionSetup (⟨Real.sin, Real.cos, Real.tan, Real.sqrt, Real.pi⟩ : JSMath ℝ) 300 0 ≠
        Except.error SetupError.DegenerateAspect ∧
      JSNumber.div (JSNumber.finite (300 : ℝ)) (JSNumber.finite 0) = JSNumber.posInfinity ∧
      (∃ m, projectionSetup (⟨Real.sin, Real.cos, Real.tan, Real.sqrt, Real.pi⟩ : JSMath ℝ) 300 0 =
          Except.ok m ∧ m.e0 = JSNumber.finite 0) ∧
      (∃ m, projectionSetup (⟨Real.sin, Real.cos, Real.tan, Real.sqrt, Real.pi⟩ : JSMath ℝ) 0 0 =
          Except.ok m ∧ m.e0 = JSNumber.NaN) ∧
      (setup (⟨Real.sin, Real.cos, Real.tan, Real.sqrt, Real.pi⟩ : JSMath ℝ) 300 0).thrown = some JSError.ReferenceError ∧
      (setup (⟨Real.sin, Real.cos, Real.tan, Real.sqrt, Real.pi⟩ : JSMath ℝ) 300 0).projectionMatrix = mat4.create := by
  have h300 : JSNumber.div (JSNumber.finite (300 : ℝ)) (JSNumber.finite 0) =
      JSNumber.posInfinity := by
    simp [JSNumber.div]
  refine ⟨fun h ↦ Except.noConfusion h, h300, ⟨_, rfl, ?_⟩, ⟨_, rfl, ?_⟩, ?_, ?_⟩
  · simp only [mat4.perspectiveJS, Nat.cast_ofNat, Nat.cast_zero, h300, real_perspective_focal]
    rfl
  · simp only [mat4.perspectiveJS, Nat.cast_zero, real_perspective_focal]
    simp [JSNumber.div]
  · rw [setup_eq]
  · rw [setup_eq]

/-! ## Claim about the fragment shader -/

theorem dot_normalize_light (n : Vec3 ℝ) :
    glsl.dot (glsl.normalize ⟨Real.sin, Real.cos, Real.tan, Real.sqrt, Real.pi⟩ n)
        (glsl.normalize ⟨Real.sin, Real.cos, Real.tan, Real.sqrt, Real.pi⟩ ⟨1, 1, 1⟩) =
      (n.x + n.y + n.z) / (Real.sqrt (n.x ^ 2 + n.y ^ 2 + n.z ^ 2) * Real.sqrt 3) := by
  have h3 : (1 : ℝ) * 1 + 1 * 1 + 1 * 1 = 3 := by norm_num
  have hn : n.x * n.x + n.y * n.y + n.z * n.z = n.x ^ 2 + n.y ^ 2 + n.z ^ 2 := by ring
  simp only [glsl.dot, glsl.normalize, glsl.length, h3, hn]
  ring

/-- C4: over the reals, for every nonzero interpolated normal `n` the fragment shader
writes the colour `(d, d, d, 1)` with
`d = max(dot(normalize(n), normalize((1,1,1))), 0)`, which is
`max((n.x + n.y + n.z) / (|n| · √3), 0)`: no ambient term is added and alpha is 1.
Whenever `dot(n, (1,1,1)) ≤ 0` the colour is `(0, 0, 0, 1)`; in particular for
every `n = (-t, -t, -t)` with `t > 0`, the normals anti-parallel to the light. -/
theorem C4_fragment_colour (n : Vec3 ℝ) (hn : n ≠ ⟨0, 0, 0⟩) :
    fragmentShader ⟨Real.sin, Real.cos, Real.tan, Real.sqrt, Real.pi⟩ n =
        ⟨max (glsl.dot (glsl.normalize ⟨Real.sin, Real.cos, Real.tan, Real.sqrt, Real.pi⟩ n)
            (glsl.normalize ⟨Real.sin, Real.cos, Real.tan, Real.sqrt, Real.pi⟩ ⟨1, 1, 1⟩)) 0,
          max (glsl.dot (glsl.normalize ⟨Real.sin, Real.cos, Real.tan, Real.sqrt, Real.pi⟩ n)
            (glsl.normalize ⟨Real.sin, Real.cos, Real.tan, Real.sqrt, Real.pi⟩ ⟨1, 1, 1⟩)) 0,
          max (glsl.dot (glsl.normalize ⟨Real.sin, Real.cos, Real.tan, Real.sqrt, Real.pi⟩ n)
            (glsl.normalize ⟨Real.sin, Real.cos, Real.tan, Real.sqrt, Real.pi⟩ ⟨1, 1, 1⟩)) 0,
          1⟩ ∧
      glsl.dot (glsl.normalize ⟨Real.sin, Real.cos, Real.tan, Real.sqrt, Real.pi⟩ n)
          (glsl.normalize ⟨Real.sin, Real.cos, Real.tan, Real.sqrt, Real.pi⟩ ⟨1, 1, 1⟩) =
        (n.x + n.y + n.z) / (Real.sqrt (n.x ^ 2 + n.y ^ 2 + n.z ^ 2) * Real.sqrt 3) ∧
      0 < Real.sqrt (n.x ^ 2 + n.y ^ 2 + n.z ^ 2) * Real.sqrt 3 ∧
      (fragmentShader ⟨Real.sin, Real.cos, Real.tan, Real.sqrt, Real.pi⟩ n).w = 1 ∧
      (glsl.dot n ⟨1, 1, 1⟩ ≤ 0 →
        fragmentShader ⟨Real.sin, Real.cos, Real.tan, Real.sqrt, Real.pi⟩ n = ⟨0, 0, 0, 1⟩) ∧
      (∀ t : ℝ, 0 < t → n = ⟨-t, -t, -t⟩ →
        fragmentShader ⟨Real.sin, Real.cos, Real.tan, Real.sqrt, Real.pi⟩ n = ⟨0, 0, 0, 1⟩) := by
  have hshader : fragmentShader ⟨Real.sin, Real.cos, Real.tan, Real.sqrt, Real.pi⟩ n =
      ⟨max (glsl.dot (glsl.normalize ⟨Real.sin, Real.cos, Real.tan, Real.sqrt, Real.pi⟩ n)
          (glsl.normalize ⟨Real.sin, Real.cos, Real.tan, Real.sqrt, Real.pi⟩ ⟨1, 1, 1⟩)) 0,
        max (glsl.dot (glsl.normalize ⟨Real.sin, Real.cos, Real.tan, Real.sqrt, Real.pi⟩ n)
          (glsl.normalize ⟨Real.sin, Real.cos, Real.tan, Real.sqrt, Real.pi⟩ ⟨1, 1, 1⟩)) 0,
        max (glsl.dot (glsl.normalize ⟨Real.sin, Real.cos, Real.tan, Real.sqrt, Real.pi⟩ n)
          (glsl.normalize ⟨Real.sin, Real.cos, Real.tan, Real.sqrt, Real.pi⟩ ⟨1, 1, 1⟩)) 0,
        1⟩ := by
    simp only [fragmentShader, glsl.vec4, glsl.vec3]
    norm_num
  have hsq : 0 < n.x ^ 2 + n.y ^ 2 + n.z ^ 2 := by
    by_contra hle
    have hx := sq_nonneg n.x
    have hy := sq_nonneg n.y
    have hz := sq_nonneg n.z
    have h0x : n.x = 0 := by
      have : n.x ^ 2 = 0 := by linarith
      exact pow_eq_zero_iff (two_ne_zero) |>.mp this
    have h0y : n.y = 0 := by
      have : n.y ^ 2 = 0 := by linarith
      exact pow_eq_zero_iff (two_ne_zero) |>.mp this
    have h0z : n.z = 0 := by
      have : n.z ^ 2 = 0 := by linarith
      exact pow_eq_zero_iff (two_ne_zero) |>.mp this
    exact hn (Vec3.ext h0x h0y h0z)
  have hpos : 0 < Real.sqrt (n.x ^ 2 + n.y ^ 2 + n.z ^ 2) * Real.sqrt 3 :=
    mul_pos (Real.sqrt_pos.mpr hsq) (Real.sqrt_pos.mpr (by norm_num))
  have hdark : glsl.dot n ⟨1, 1, 1⟩ ≤ 0 →
      fragmentShader ⟨Real.sin, Real.cos, Real.tan, Real.sqrt, Real.pi⟩ n = ⟨0, 0, 0, 1⟩ := by
    intro hle
    have hsum : n.x + n.y + n.z ≤ 0 := by
      simpa [glsl.dot] using hle
    have hd : glsl.dot (glsl.normalize ⟨Real.sin, Real.cos, Real.tan, Real.sqrt, Real.pi⟩ n)
        (glsl.normalize ⟨Real.sin, Real.cos, Real.tan, Real.sqrt, Real.pi⟩ ⟨1, 1, 1⟩) ≤ 0 := by
      rw [dot_normalize_light]
      exact div_nonpos_of_nonpos_of_nonneg hsum hpos.le
    rw [hshader, max_eq_right hd]
  refine ⟨hshader, dot_normalize_light n, hpos, ?_, hdark, ?_⟩
  · rw [hshader]
  · intro t ht hnt
    apply hdark
    rw [hnt]
    simp only [glsl.dot]
    linarith

/-- C4 at the normal `(-1, -1, -1)`, anti-parallel to the light: the colour is
`(0, 0, 0, 1)`. -/
theorem C4_fragment_colour_antiparallel :
    ((⟨-1, -1, -1⟩ : Vec3 ℝ) ≠ ⟨0, 0, 0⟩) ∧
      fragmentShader ⟨Real.sin, Real.cos, Real.tan, Real.sqrt, Real.pi⟩ (⟨-1, -1, -1⟩ : Vec3 ℝ) =
        ⟨0, 0, 0, 1⟩ :=
  ⟨by simp, (C4_fragment_colour ⟨-1, -1, -1⟩ (by simp)).2.2.2.2.2 1 one_pos (by simp)⟩

end Program

end Assignment
